import Mathlib

/-!
Shallow embedding of the contacts/CRM module of the Wechat repository:
the `contacts` table and triggers (src/unnamed/part_000), the
`contact_groups` junction table (src/supabase/migrations/create_contact_groups_table.sql),
the contacts REST handlers (src/app/api/contacts/route.ts,
src/app/api/contacts/[id]/route.ts, src/app/api/contacts/search/route.ts),
the group-membership REST handlers (the second document of
src/app/api/contacts/route.ts), and the membership delta computed by the
group-management dialog (src/components/chat/group-management-dialog.tsx).

Database state is a record of lists of rows; each HTTP handler is a pure
function from the state, the authenticated caller (`Option String`, `none`
meaning no valid session) and the request data to a response and a new
state.  Timestamps are `Nat` supplied as a `now` parameter; fresh row ids
are supplied as parameters.  Row-level security predicates from the
migrations are applied where they are observable (the membership join).
-/

namespace Wechat

/-- A row of the `contacts` table (src/unnamed/part_000): id, owner,
phone number, required custom name, optional profile fields, optional
tag array, optional last-active time, and created/updated timestamps. -/
structure Contact where
  id : String
  owner_id : String
  phone_number : String
  custom_name : String
  whatsapp_name : Option String := none
  email : Option String := none
  company : Option String := none
  position : Option String := none
  address : Option String := none
  notes : Option String := none
  tags : Option (List String) := none
  last_active : Option Nat := none
  created_at : Nat := 0
  updated_at : Nat := 0
deriving DecidableEq, Repr

/-- A row of the external `chat_groups` table, as far as the handlers read
it: id and owner. -/
structure ChatGroup where
  id : String
  owner_id : String
deriving DecidableEq, Repr

/-- A row of the `contact_groups` junction table
(create_contact_groups_table.sql): contact id, group id, added-at time and
adder identity. -/
structure ContactGroupRow where
  contact_id : String
  group_id : String
  added_at : Nat := 0
  added_by : Option String := none
deriving DecidableEq, Repr

/-- A row of the `group_members` table written by the add-members and
remove-member handlers. Its schema is not under src/; only its columns
`group_id` and `user_id` are observable from the handlers. -/
structure GroupMemberRow where
  group_id : String
  user_id : String
deriving DecidableEq, Repr

/-- The database state: the four tables the handlers touch. -/
structure DB where
  contacts : List Contact := []
  chat_groups : List ChatGroup := []
  contact_groups : List ContactGroupRow := []
  group_members : List GroupMemberRow := []
deriving DecidableEq, Repr

/-- Outcome of a handler, abstracting the JSON body to its data payload;
the HTTP status is recovered by `HandlerResult.status`. -/
inductive HandlerResult (α : Type) where
  | unauthorized
  | badRequest
  | notFound
  | conflict
  | serverError
  | ok (data : α)
deriving DecidableEq, Repr

/-- The HTTP status code each outcome is sent with in the handlers. -/
def HandlerResult.status {α : Type} : HandlerResult α → Nat
  | .unauthorized => 401
  | .badRequest => 400
  | .notFound => 404
  | .conflict => 409
  | .serverError => 500
  | .ok _ => 200

/-- JavaScript falsiness of an optional string body field: absent, null or
the empty string (the `!phoneNumber` style checks in the handlers). -/
def falsyStr : Option String → Bool
  | none => true
  | some s => s == ""

/-- Models `field?.trim() || null`: absent stays absent; a string that
trims to empty becomes absent; otherwise the trimmed string. -/
def normStr : Option String → Option String
  | none => none
  | some s => if s.trim == "" then none else some s.trim

/-- Request body of the create and update contact handlers.  `owner` is
never read by any handler; it is present so that supplying an owner in the
body is representable. -/
structure ContactBody where
  phoneNumber : Option String := none
  customName : Option String := none
  whatsappName : Option String := none
  email : Option String := none
  company : Option String := none
  position : Option String := none
  address : Option String := none
  notes : Option String := none
  tags : Option (List String) := none
  owner : Option String := none
deriving DecidableEq, Repr

/-- Ordering used by `order("custom_name", ascending, nullsFirst false)`;
`custom_name` is NOT NULL in the schema, so the null placement clause is
vacuous and the order is plain ascending on the name. -/
def nameLE (a b : Contact) : Prop := a.custom_name ≤ b.custom_name

instance : DecidableRel nameLE := fun a b =>
  inferInstanceAs (Decidable (a.custom_name ≤ b.custom_name))

instance : IsTotal Contact nameLE := ⟨fun a b => le_total a.custom_name b.custom_name⟩

instance : IsTrans Contact nameLE := ⟨fun _ _ _ hab hbc => le_trans hab hbc⟩

/-- The ORDER BY applied by the list and search handlers. -/
def sortByCustomName (l : List Contact) : List Contact := l.insertionSort nameLE

namespace Api.ContactsRoute

/-- GET /api/contacts (src/app/api/contacts/route.ts): 401 without a
session, else all contacts of the caller ordered by custom name. -/
def GET (db : DB) (auth : Option String) : HandlerResult (List Contact) :=
  match auth with
  | none => .unauthorized
  | some uid => .ok (sortByCustomName (db.contacts.filter (fun c => c.owner_id == uid)))

/-- The row the create handler inserts: trimmed phone and name, optional
fields normalised by `normStr`, tags kept when an array was supplied,
last-active set to now; the before-insert trigger fills `owner_id` with
the caller since the handler supplies none, and created/updated default
to now. -/
def mkContact (uid : String) (body : ContactBody) (newId : String) (now : Nat) : Contact :=
  { id := newId
    owner_id := uid
    phone_number := (body.phoneNumber.getD "").trim
    custom_name := (body.customName.getD "").trim
    whatsapp_name := normStr body.whatsappName
    email := normStr body.email
    company := normStr body.company
    position := normStr body.position
    address := normStr body.address
    notes := normStr body.notes
    tags := body.tags
    last_active := some now
    created_at := now
    updated_at := now }

/-- The UNIQUE(owner_id, phone_number) constraint check for an insert by
`uid` of a row with the given phone. -/
def phoneConflict (db : DB) (uid phone : String) : Bool :=
  db.contacts.any (fun c => c.owner_id == uid && c.phone_number == phone)

/-- POST /api/contacts (src/app/api/contacts/route.ts): 401 without a
session; 400 when phoneNumber or customName is falsy; 409 when the
insert violates UNIQUE(owner_id, phone_number) (error code 23505);
otherwise appends the row and returns it. -/
def POST (db : DB) (auth : Option String) (body : ContactBody) (newId : String)
    (now : Nat) : HandlerResult Contact × DB :=
  match auth with
  | none => (.unauthorized, db)
  | some uid =>
    if falsyStr body.phoneNumber || falsyStr body.customName then (.badRequest, db)
    else
      let row := mkContact uid body newId now
      if phoneConflict db uid row.phone_number then (.conflict, db)
      else (.ok row, { db with contacts := db.contacts ++ [row] })

end Api.ContactsRoute

namespace Api.ContactIdRoute

/-- GET /api/contacts/[id] (src/app/api/contacts/[id]/route.ts): 401
without a session; the single row with this id owned by the caller, or
404 when `.single()` reports no row (PGRST116). -/
def GET (db : DB) (auth : Option String) (contactId : String) : HandlerResult Contact :=
  match auth with
  | none => .unauthorized
  | some uid =>
    match db.contacts.find? (fun c => c.id == contactId && c.owner_id == uid) with
    | some c => .ok c
    | none => .notFound

/-- The column assignments of the update statement in PUT, plus the
before-update trigger refreshing `updated_at`; phone number and owner are
not among the assigned columns. -/
def applyUpdate (body : ContactBody) (now : Nat) (c : Contact) : Contact :=
  { c with
    custom_name := (body.customName.getD "").trim
    whatsapp_name := normStr body.whatsappName
    email := normStr body.email
    company := normStr body.company
    position := normStr body.position
    address := normStr body.address
    notes := normStr body.notes
    tags := body.tags
    updated_at := now }

/-- PUT /api/contacts/[id] (src/app/api/contacts/[id]/route.ts): 401
without a session; 400 when customName is falsy; when the update matches
no row (absent id or other owner) `.select().single()` fails with
PGRST116, which this handler rethrows, so the catch block answers 500;
otherwise the matching row is rewritten and returned. -/
def PUT (db : DB) (auth : Option String) (contactId : String) (body : ContactBody)
    (now : Nat) : HandlerResult Contact × DB :=
  match auth with
  | none => (.unauthorized, db)
  | some uid =>
    if falsyStr body.customName then (.badRequest, db)
    else
      match db.contacts.find? (fun c => c.id == contactId && c.owner_id == uid) with
      | none => (.serverError, db)
      | some c =>
        (.ok (applyUpdate body now c),
         { db with contacts := db.contacts.map (fun x =>
             if x.id == contactId && x.owner_id == uid then applyUpdate body now x else x) })

/-- DELETE /api/contacts/[id] (src/app/api/contacts/[id]/route.ts): 401
without a session; otherwise deletes the rows matching id and owner (zero
rows is not an error for delete) and cascades the `contact_groups` rows of
a deleted contact; always answers success. -/
def DELETE (db : DB) (auth : Option String) (contactId : String) : HandlerResult Unit × DB :=
  match auth with
  | none => (.unauthorized, db)
  | some uid =>
    let deleted := db.contacts.filter (fun c => c.id == contactId && c.owner_id == uid)
    (.ok (),
     { db with
       contacts := db.contacts.filter (fun c => !(c.id == contactId && c.owner_id == uid))
       contact_groups := db.contact_groups.filter (fun r =>
         !(deleted.any (fun c => c.id == r.contact_id))) })

end Api.ContactIdRoute

/-- `pat` occurs contiguously inside the character list. -/
def charListContains (pat : List Char) : List Char → Bool
  | [] => pat.isEmpty
  | c :: rest => pat.isPrefixOf (c :: rest) || charListContains pat rest

/-- SQL ILIKE pattern matching over character lists: a percent sign
matches any character sequence, an underscore exactly one character, a
backslash escapes the following pattern character, and every other
pattern character matches case-insensitively.  A trailing lone backslash
(an error in the database, and unreachable from the patterns the handler
builds, which always end in a percent) matches nothing. -/
def likeMatchCI : List Char → List Char → Bool
  | [], s => s.isEmpty
  | c :: ps, s =>
    if c = '%' then s.tails.any (fun t => likeMatchCI ps t)
    else if c = '_' then
      match s with
      | [] => false
      | _ :: s' => likeMatchCI ps s'
    else if c = '\\' then
      match ps with
      | [] => false
      | p :: ps' =>
        match s with
        | [] => false
        | c' :: s' => (p.toLower == c'.toLower) && likeMatchCI ps' s'
    else
      match s with
      | [] => false
      | c' :: s' => (c.toLower == c'.toLower) && likeMatchCI ps s'

/-- The model of `column ilike %q%` with the raw query interpolated into
the pattern, as the search handler builds it: wildcard characters inside
`q` keep their SQL meaning. -/
def ilikeContains (hay q : String) : Bool :=
  likeMatchCI ('%' :: (q.toList ++ ['%'])) hay.toList

/-- `ilike` against a nullable column: SQL NULL compared with a pattern is
not a match. -/
def optIlikeContains (o : Option String) (q : String) : Bool :=
  match o with
  | some s => ilikeContains s q
  | none => false

/-- The or-filter of the search handler: the interpolated pattern `%q%`
matches custom name, whatsapp name, phone number, email or company. -/
def matchesQuery (c : Contact) (q : String) : Bool :=
  ilikeContains c.custom_name q || optIlikeContains c.whatsapp_name q ||
  ilikeContains c.phone_number q || optIlikeContains c.email q ||
  optIlikeContains c.company q

/-- Case-insensitive literal substring containment: the notion of match
named by the specification (no wildcard reading of the query). -/
def containsSubstringCI (hay pat : String) : Bool :=
  charListContains (pat.toList.map Char.toLower) (hay.toList.map Char.toLower)

/-- Literal substring containment against a nullable column. -/
def optContainsSubstringCI (o : Option String) (pat : String) : Bool :=
  match o with
  | some s => containsSubstringCI s pat
  | none => false

/-- Following the words of the specification: the query occurs
case-insensitively as a literal substring of custom name, whatsapp name,
phone number, email or company.  Stated for comparison with the
handler's `matchesQuery`. -/
def specMatchesQuery (c : Contact) (q : String) : Bool :=
  containsSubstringCI c.custom_name q || optContainsSubstringCI c.whatsapp_name q ||
  containsSubstringCI c.phone_number q || optContainsSubstringCI c.email q ||
  optContainsSubstringCI c.company q

/-- The query is interpolated into the one `.or(...)` filter string of
the search handler; a comma or parenthesis inside it breaks the
PostgREST or-filter syntax, the request errors, and the handler answers
500.  This predicate detects such queries. -/
def orFilterBroken (q : String) : Bool :=
  q.toList.any (fun c => c == ',' || c == '(' || c == ')')

/-- A query free of the SQL LIKE wildcard characters and of the
PostgREST or-filter metacharacters: for such queries the interpolated
`ilike %q%` is exactly case-insensitive substring containment and the
or-filter string parses. -/
def cleanQuery (q : String) : Prop :=
  ∀ c ∈ q.toList, c ≠ '%' ∧ c ≠ '_' ∧ c ≠ '\\' ∧ c ≠ ',' ∧ c ≠ '(' ∧ c ≠ ')'

/-- The tag filter `contains("tags", [tag])`: array containment, so the
tag set holds this exact tag; a NULL tag array matches nothing. -/
def hasTag (c : Contact) (t : String) : Bool :=
  match c.tags with
  | some l => l.contains t
  | none => false

namespace Api.SearchRoute

/-- The owner, query and tag filters of the search handler, in the order
the query builder applies them. -/
def filteredContacts (db : DB) (uid : String) (q : String) (tag : Option String) :
    List Contact :=
  let base := db.contacts.filter (fun c => c.owner_id == uid)
  let afterQ := if q == "" then base else base.filter (fun c => matchesQuery c q)
  match tag with
  | none => afterQ
  | some t => if t == "" then afterQ else afterQ.filter (fun c => hasTag c t)

/-- GET /api/contacts/search (src/app/api/contacts/search/route.ts):
`q` defaults to the empty string when absent (`searchParams.get("q") || ""`)
and the query filter is applied only when it is non-empty; a non-empty
query containing an or-filter metacharacter makes the interpolated
filter string unparseable and the handler answers 500; the tag filter is
applied only when the tag parameter is present and truthy; both filters
are conjoined on top of the owner filter, and the result is ordered by
custom name ascending. -/
def GET (db : DB) (auth : Option String) (q : String) (tag : Option String) :
    HandlerResult (List Contact) :=
  match auth with
  | none => .unauthorized
  | some uid =>
    if (q != "") && orFilterBroken q then .serverError
    else .ok (sortByCustomName (filteredContacts db uid q tag))

end Api.SearchRoute

/-- The `.single()` ownership probe used by all three group-membership
handlers: a `chat_groups` row with this id owned by the caller exists. -/
def ownsGroup (db : DB) (uid gid : String) : Bool :=
  db.chat_groups.any (fun g => g.id == gid && g.owner_id == uid)

/-- The SELECT row-level-security policy of `contact_groups`
(create_contact_groups_table.sql): a junction row is visible iff the
caller owns the referenced contact. -/
def cgVisible (db : DB) (uid : String) (r : ContactGroupRow) : Bool :=
  db.contacts.any (fun c => c.id == r.contact_id && c.owner_id == uid)

/-- One element of the embedded join `contact_groups(contact_id, contacts(...))`
as the members handler receives it; `contacts` is null when the join found
no visible contact row. -/
structure JoinRow where
  contact_id : String
  contacts : Option Contact
deriving DecidableEq, Repr

/-- The join the members handler selects: the visible `contact_groups`
rows of the group, each paired with the contact row visible to the caller
under the contacts SELECT policy (owner equals caller). -/
def joinRows (db : DB) (uid gid : String) : List JoinRow :=
  (db.contact_groups.filter (fun r => r.group_id == gid && cgVisible db uid r)).map
    (fun r =>
      { contact_id := r.contact_id
        contacts := db.contacts.find? (fun c => c.id == r.contact_id && c.owner_id == uid) })

/-- A member object of the members response. -/
structure Member where
  member_id : String
  user_id : String
  custom_name : String
  whatsapp_name : String
  unread_count : Nat
deriving DecidableEq, Repr

/-- The formatting map of the members handler: `cg.contacts?.field || ""`
for the string fields and a literal 0 for `unread_count`. -/
def formatMember (r : JoinRow) : Member :=
  { member_id := r.contact_id
    user_id :=
      match r.contacts with
      | some c => c.phone_number
      | none => ""
    custom_name :=
      match r.contacts with
      | some c => c.custom_name
      | none => ""
    whatsapp_name :=
      match r.contacts with
      | some c => c.whatsapp_name.getD ""
      | none => ""
    unread_count := 0 }

/-- Modelled from the spec: the schema of the `group_members` table is not
under src/ (only the handlers that write it are).  Spec section 3 states
the membership invariant "unique (contact id, group id) pair", and the
add-members handler comments that duplicates hit a unique constraint.  A
multi-row INSERT is one statement: when any inserted row repeats an
existing (group_id, user_id) pair, or another row of the same batch, the
statement fails with a unique violation and no row is added; otherwise
all rows are appended. -/
def insertGroupMembers (existing rows : List GroupMemberRow) :
    Option (List GroupMemberRow) :=
  if rows.any (fun r => existing.any (fun e => e.group_id == r.group_id && e.user_id == r.user_id))
      || hasDupPair rows
  then none
  else some (existing ++ rows)
where
  /-- Some (group_id, user_id) pair occurs twice within the batch. -/
  hasDupPair : List GroupMemberRow → Bool
    | [] => false
    | r :: rest =>
      rest.any (fun e => e.group_id == r.group_id && e.user_id == r.user_id) || hasDupPair rest

namespace Api.GroupMembersRoute

/-- GET /api/groups/[id]/members (second document of
src/app/api/contacts/route.ts): 401 without a session; 404 unless the
caller owns the group; otherwise the formatted join rows. -/
def GET (db : DB) (auth : Option String) (groupId : String) : HandlerResult (List Member) :=
  match auth with
  | none => .unauthorized
  | some uid =>
    if ownsGroup db uid groupId then .ok ((joinRows db uid groupId).map formatMember)
    else .notFound

/-- POST /api/groups/[id]/members (second document of
src/app/api/contacts/route.ts): 401 without a session; 400 when userIds
is absent, not an array, or empty; 404 unless the caller owns the group;
then one INSERT of a row (group_id, userId) per identifier — any insert
error, a unique violation included, answers 500; on success `added` is
the number of inserted rows. -/
def POST (db : DB) (auth : Option String) (groupId : String)
    (userIds : Option (List String)) : HandlerResult Nat × DB :=
  match auth with
  | none => (.unauthorized, db)
  | some uid =>
    match userIds with
    | none => (.badRequest, db)
    | some ids =>
      if ids.isEmpty then (.badRequest, db)
      else if ownsGroup db uid groupId then
        let members := ids.map (fun u => ({ group_id := groupId, user_id := u } : GroupMemberRow))
        match insertGroupMembers db.group_members members with
        | none => (.serverError, db)
        | some gm => (.ok members.length, { db with group_members := gm })
      else (.notFound, db)

/-- DELETE /api/groups/[id]/members (second document of
src/app/api/contacts/route.ts): 401 without a session; 400 when the
userId query parameter is absent or falsy; 404 unless the caller owns the
group; otherwise deletes the matching membership rows and answers
success. -/
def DELETE (db : DB) (auth : Option String) (groupId : String)
    (userId : Option String) : HandlerResult Unit × DB :=
  match auth with
  | none => (.unauthorized, db)
  | some uid =>
    match userId with
    | none => (.badRequest, db)
    | some u =>
      if u == "" then (.badRequest, db)
      else if ownsGroup db uid groupId then
        (.ok (),
         { db with group_members := db.group_members.filter (fun r =>
             !(r.group_id == groupId && r.user_id == u)) })
      else (.notFound, db)

end Api.GroupMembersRoute

/-- The membership delta of the edit-mode save in
src/components/chat/group-management-dialog.tsx: with current membership
`currentMemberIds` and selection `selectedUserIds`, `toAdd` is the
selection minus the membership and `toRemove` the membership minus the
selection; the save then issues one delete restricted to `toRemove` and
one insert of exactly `toAdd`. -/
def handleSaveDelta (currentMemberIds selectedUserIds : List String) :
    List String × List String :=
  (selectedUserIds.filter (fun id => !currentMemberIds.contains id),
   currentMemberIds.filter (fun id => !selectedUserIds.contains id))

/-! Concrete fixtures used by counterexamples and witnesses. -/

/-- A contact owned by the account alice, with the phone number of the
example scenario of the spec. -/
def aliceContact : Contact :=
  { id := "c1", owner_id := "alice", phone_number := "15551234567",
    custom_name := "Alice" }

/-- A state holding exactly that one contact. -/
def dbOne : DB := { contacts := [aliceContact] }

/-- A state where alice owns group g1 and the membership row (g1, c1)
already exists in `group_members`. -/
def dbGrp : DB :=
  { chat_groups := [{ id := "g1", owner_id := "alice" }]
    group_members := [{ group_id := "g1", user_id := "c1" }] }

/-- A state where alice owns group g1 and her contact c1 is a member of
it through `contact_groups`. -/
def dbMembers : DB :=
  { contacts := [aliceContact]
    chat_groups := [{ id := "g1", owner_id := "alice" }]
    contact_groups := [{ contact_id := "c1", group_id := "g1" }] }

/-- The members response computed for `dbMembers`. -/
def msMembers : List Member :=
  [{ member_id := "c1", user_id := "15551234567", custom_name := "Alice",
     whatsapp_name := "", unread_count := 0 }]

/-- An update body carrying only a new custom name. -/
def bodyName : ContactBody := { customName := some "Bob" }

/-- A create body with the phone number and name of the example scenario
of the spec. -/
def bodyCreate : ContactBody :=
  { phoneNumber := some "15551234567", customName := some "Alice" }

/-! Shared auxiliary lemmas. -/

/-- A body field is not falsy exactly when it is present and non-empty. -/
theorem falsyStr_eq_false_iff (o : Option String) :
    falsyStr o = false ↔ o ≠ none ∧ o ≠ some "" := by
  cases o with
  | none => simp [falsyStr]
  | some s => simp [falsyStr]

/-- The uniqueness-constraint check holds exactly when a stored contact
of the same owner already carries the phone number. -/
theorem phoneConflict_iff (db : DB) (uid p : String) :
    Api.ContactsRoute.phoneConflict db uid p = true ↔
      ∃ c ∈ db.contacts, c.owner_id = uid ∧ c.phone_number = p := by
  simp [Api.ContactsRoute.phoneConflict, List.any_eq_true]

/-- Unfolding equation of the matcher for the empty pattern. -/
theorem likeMatchCI_nil_pat (s : List Char) : likeMatchCI [] s = s.isEmpty := rfl

/-- Unfolding equation of the matcher for a leading percent. -/
theorem likeMatchCI_percent (ps : List Char) (s : List Char) :
    likeMatchCI ('%' :: ps) s = s.tails.any (fun t => likeMatchCI ps t) := by
  conv_lhs => rw [likeMatchCI.eq_def]
  simp only [reduceIte]

/-- Unfolding equation of the matcher for a leading literal character. -/
theorem likeMatchCI_lit (c : Char) (ps : List Char) (s : List Char)
    (h1 : c ≠ '%') (h2 : c ≠ '_') (h3 : c ≠ '\\') :
    likeMatchCI (c :: ps) s =
      match s with
      | [] => false
      | c' :: s' => (c.toLower == c'.toLower) && likeMatchCI ps s' := by
  conv_lhs => rw [likeMatchCI.eq_def]
  simp only [if_neg h1, if_neg h2, if_neg h3]

/-- A list is a prefix of the empty list exactly when it is empty. -/
theorem isPrefixOf_nil_eq (l : List Char) : l.isPrefixOf ([] : List Char) = l.isEmpty := by
  cases l <;> simp [List.isPrefixOf]

/-- For a wildcard-free query the pattern `q%` matches a string exactly
when the lowered query is a prefix of the lowered string. -/
theorem likeMatchCI_append_percent (q : List Char) (s : List Char)
    (hq : ∀ c ∈ q, c ≠ '%' ∧ c ≠ '_' ∧ c ≠ '\\') :
    likeMatchCI (q ++ ['%']) s = (q.map Char.toLower).isPrefixOf (s.map Char.toLower) := by
  induction q generalizing s with
  | nil =>
    simp only [List.nil_append, List.map_nil]
    induction s with
    | nil => rfl
    | cons c s ihs =>
      rw [likeMatchCI_percent] at ihs ⊢
      simp only [List.tails, List.any_cons, ihs, likeMatchCI_nil_pat, Bool.or_true]
      simp [List.isPrefixOf]
  | cons c q ih =>
    obtain ⟨h1, h2, h3⟩ := hq c (List.mem_cons_self c q)
    have hq' : ∀ a ∈ q, a ≠ '%' ∧ a ≠ '_' ∧ a ≠ '\\' :=
      fun a ha => hq a (List.mem_cons_of_mem c ha)
    cases s with
    | nil =>
      rw [List.cons_append, likeMatchCI_lit c _ _ h1 h2 h3]
      simp [List.isPrefixOf]
    | cons c' s' =>
      rw [List.cons_append, likeMatchCI_lit c _ _ h1 h2 h3]
      simp only [List.map_cons, List.isPrefixOf, ih s' hq']

/-- For a wildcard-free query the pattern `%q%` matches a string exactly
when the lowered query occurs as a contiguous substring of the lowered
string. -/
theorem likeMatchCI_substring (q : List Char) (s : List Char)
    (hq : ∀ c ∈ q, c ≠ '%' ∧ c ≠ '_' ∧ c ≠ '\\') :
    likeMatchCI ('%' :: (q ++ ['%'])) s =
      charListContains (q.map Char.toLower) (s.map Char.toLower) := by
  induction s with
  | nil =>
    rw [likeMatchCI_percent]
    simp only [List.tails, List.any_cons, List.any_nil, Bool.or_false, List.map_nil,
      charListContains]
    rw [likeMatchCI_append_percent q [] hq]
    simp [isPrefixOf_nil_eq]
  | cons c s ih =>
    rw [likeMatchCI_percent] at ih ⊢
    simp only [List.tails, List.any_cons]
    rw [likeMatchCI_append_percent q (c :: s) hq, ih]
    simp [charListContains]

/-- For a wildcard-free query the interpolated ilike filter is literal
case-insensitive substring containment. -/
theorem ilikeContains_eq_substring (hay q : String)
    (hq : ∀ c ∈ q.toList, c ≠ '%' ∧ c ≠ '_' ∧ c ≠ '\\') :
    ilikeContains hay q = containsSubstringCI hay q :=
  likeMatchCI_substring q.toList hay.toList hq

/-- The nullable-column version of `ilikeContains_eq_substring`. -/
theorem optIlikeContains_eq_substring (o : Option String) (q : String)
    (hq : ∀ c ∈ q.toList, c ≠ '%' ∧ c ≠ '_' ∧ c ≠ '\\') :
    optIlikeContains o q = optContainsSubstringCI o q := by
  cases o with
  | none => rfl
  | some s =>
    simp only [optIlikeContains, optContainsSubstringCI, ilikeContains_eq_substring s q hq]

/-- For a wildcard-free query the or-filter of the search handler agrees
with the literal substring reading of the specification. -/
theorem matchesQuery_eq_spec (c : Contact) (q : String)
    (hq : ∀ a ∈ q.toList, a ≠ '%' ∧ a ≠ '_' ∧ a ≠ '\\') :
    matchesQuery c q = specMatchesQuery c q := by
  simp only [matchesQuery, specMatchesQuery, ilikeContains_eq_substring _ q hq,
    optIlikeContains_eq_substring _ q hq]

/-! Claim theorems. -/

/-- C1: the add-members handler invoked by the group owner on a list that
repeats an existing (group, member) pair does not ignore the duplicate:
the single INSERT statement fails on the unique constraint, the handler
maps the insert error to a 500 response, and no membership row is added.
This contradicts the claim (and the inline comment of the handler) that
duplicate pairs are silently ignored with success reported. -/
theorem C1_add_members_duplicate_pair_errors :
    Api.GroupMembersRoute.POST dbGrp (some "alice") "g1" (some ["c1"]) =
        (.serverError, dbGrp) ∧
      (HandlerResult.serverError : HandlerResult Nat).status = 500 := by
  exact ⟨by decide, rfl⟩

/-- C2 counterexample: with an authenticated caller bob and a contact c1
owned by alice (so the id is not owned by the caller) and a valid body,
the update handler answers 500, not the claimed 404. -/
theorem C2_counterexample :
    (Api.ContactIdRoute.PUT dbOne (some "bob") "c1" bodyName 5).1.status = 500 ∧
      (Api.ContactIdRoute.PUT dbOne (some "bob") "c1" bodyName 5).1.status ≠ 404 := by
  decide

/-- C2 (amended): for every authenticated caller supplying a non-empty
custom name, the update handler invoked on a contact id that does not
exist or whose owner is not the caller fails with the generic 500
response (the zero-row result of single() is rethrown rather than mapped
to 404) and leaves the database unchanged. -/
theorem C2_update_absent_server_error (db : DB) (uid cid : String) (body : ContactBody)
    (now : Nat) (hname : body.customName ≠ none ∧ body.customName ≠ some "")
    (habs : ∀ c ∈ db.contacts, ¬(c.id = cid ∧ c.owner_id = uid)) :
    Api.ContactIdRoute.PUT db (some uid) cid body now = (.serverError, db) := by
  have hfal : falsyStr body.customName = false := (falsyStr_eq_false_iff _).mpr hname
  have hfind : db.contacts.find? (fun c => c.id == cid && c.owner_id == uid) = none := by
    rw [List.find?_eq_none]
    intro c hc
    simp only [Bool.and_eq_true, beq_iff_eq]
    intro hcc
    exact habs c hc ⟨hcc.1, hcc.2⟩
  simp [Api.ContactIdRoute.PUT, hfal, hfind]

/-- C2 witness: the amended statement evaluated on the concrete state. -/
theorem C2_witness :
    Api.ContactIdRoute.PUT dbOne (some "bob") "c1" bodyName 5 = (.serverError, dbOne) :=
  C2_update_absent_server_error dbOne "bob" "c1" bodyName 5 (by decide) (by decide)

/-- C3 counterexample: deleting an absent contact id with an
authenticated caller answers success 200, not the claimed 404. -/
theorem C3_counterexample :
    (Api.ContactIdRoute.DELETE ({} : DB) (some "alice") "c1").1.status = 200 ∧
      (Api.ContactIdRoute.DELETE ({} : DB) (some "alice") "c1").1.status ≠ 404 := by
  decide

/-- C3 (amended): for every authenticated caller the delete handler
always reports success; the rows with the requested id owned by the
caller are removed, and an absent (or not owned) id is a no-op that
still returns success rather than NotFound. -/
theorem C3_delete_idempotent_success (db : DB) (uid cid : String) :
    (Api.ContactIdRoute.DELETE db (some uid) cid).1 = .ok () ∧
      (∀ c, c ∈ (Api.ContactIdRoute.DELETE db (some uid) cid).2.contacts ↔
        c ∈ db.contacts ∧ ¬(c.id = cid ∧ c.owner_id = uid)) := by
  refine ⟨rfl, fun c => ?_⟩
  simp [Api.ContactIdRoute.DELETE, List.mem_filter]
  tauto

/-- C4 counterexample: a successful update by the owner with a valid body
changes the updated timestamp of the row (the before-update trigger), a
field outside the eight the claim allows to change. -/
theorem C4_counterexample :
    (Api.ContactIdRoute.PUT dbOne (some "alice") "c1" bodyName 5).1.status = 200 ∧
      (Api.ContactIdRoute.PUT dbOne (some "alice") "c1" bodyName 5).2.contacts.map
          Contact.updated_at = [5] ∧
      dbOne.contacts.map Contact.updated_at = [0] := by
  decide

/-- C4 (amended): the update handler never changes the id, owner, phone
number, creation time or last-active time of any stored contact, even if
phone number or owner values are supplied in the request body; besides
custom name, whatsapp name, email, company, position, address, notes and
tags, only the auto-refreshed updated timestamp may change. -/
theorem C4_update_preserves_immutable_fields (db : DB) (uid cid : String)
    (body : ContactBody) (now : Nat) :
    ∀ c' ∈ (Api.ContactIdRoute.PUT db (some uid) cid body now).2.contacts,
      ∃ c ∈ db.contacts, c'.id = c.id ∧ c'.owner_id = c.owner_id ∧
        c'.phone_number = c.phone_number ∧ c'.created_at = c.created_at ∧
        c'.last_active = c.last_active := by
  intro c' hc'
  simp only [Api.ContactIdRoute.PUT] at hc'
  cases hfal : falsyStr body.customName with
  | true =>
    rw [hfal] at hc'
    simp at hc'
    exact ⟨c', hc', rfl, rfl, rfl, rfl, rfl⟩
  | false =>
    rw [hfal] at hc'
    simp only [Bool.false_eq_true, if_false] at hc'
    cases hfind : db.contacts.find? (fun c => c.id == cid && c.owner_id == uid) with
    | none =>
      rw [hfind] at hc'
      exact ⟨c', hc', rfl, rfl, rfl, rfl, rfl⟩
    | some c0 =>
      rw [hfind] at hc'
      simp only [List.mem_map] at hc'
      obtain ⟨x, hx, hfx⟩ := hc'
      refine ⟨x, hx, ?_⟩
      by_cases hcond : (x.id == cid && x.owner_id == uid) = true
      · rw [← hfx]
        simp [hcond, Api.ContactIdRoute.applyUpdate]
      · rw [← hfx]
        simp [hcond]

/-- C4 witness: the amended statement evaluated on the row produced by a
concrete successful update. -/
theorem C4_witness :
    ∃ c ∈ dbOne.contacts,
      (Api.ContactIdRoute.applyUpdate bodyName 5 aliceContact).id = c.id ∧
      (Api.ContactIdRoute.applyUpdate bodyName 5 aliceContact).owner_id = c.owner_id ∧
      (Api.ContactIdRoute.applyUpdate bodyName 5 aliceContact).phone_number = c.phone_number ∧
      (Api.ContactIdRoute.applyUpdate bodyName 5 aliceContact).created_at = c.created_at ∧
      (Api.ContactIdRoute.applyUpdate bodyName 5 aliceContact).last_active = c.last_active :=
  C4_update_preserves_immutable_fields dbOne "alice" "c1" bodyName 5
    (Api.ContactIdRoute.applyUpdate bodyName 5 aliceContact)
    (List.mem_singleton.mpr rfl)

/-- C5: the create handler answers 400 when the phone number or the
custom name is absent or empty; with both present and non-empty it
answers 409 when a stored contact of the caller already carries the
trimmed phone number, and otherwise appends exactly the normalised row
and returns it with success. -/
theorem C5_create_contact_spec (db : DB) (uid : String) (body : ContactBody)
    (newId : String) (now : Nat) :
    ((body.phoneNumber = none ∨ body.phoneNumber = some "" ∨
      body.customName = none ∨ body.customName = some "") →
      Api.ContactsRoute.POST db (some uid) body newId now = (.badRequest, db)) ∧
    (body.phoneNumber ≠ none → body.phoneNumber ≠ some "" →
     body.customName ≠ none → body.customName ≠ some "" →
      ((∃ c ∈ db.contacts, c.owner_id = uid ∧
          c.phone_number = (body.phoneNumber.getD "").trim) →
        Api.ContactsRoute.POST db (some uid) body newId now = (.conflict, db)) ∧
      (¬(∃ c ∈ db.contacts, c.owner_id = uid ∧
          c.phone_number = (body.phoneNumber.getD "").trim) →
        Api.ContactsRoute.POST db (some uid) body newId now =
          (.ok (Api.ContactsRoute.mkContact uid body newId now),
           { db with contacts :=
               db.contacts ++ [Api.ContactsRoute.mkContact uid body newId now] }))) := by
  constructor
  · intro h
    have hfal : (falsyStr body.phoneNumber || falsyStr body.customName) = true := by
      rcases h with h | h | h | h <;> simp [h, falsyStr]
    simp [Api.ContactsRoute.POST, hfal]
  · intro h1 h2 h3 h4
    have hfal : (falsyStr body.phoneNumber || falsyStr body.customName) = false := by
      rw [Bool.or_eq_false_iff, falsyStr_eq_false_iff, falsyStr_eq_false_iff]
      exact ⟨⟨h1, h2⟩, ⟨h3, h4⟩⟩
    constructor
    · intro hex
      have hc : Api.ContactsRoute.phoneConflict db uid
          (Api.ContactsRoute.mkContact uid body newId now).phone_number = true := by
        rw [phoneConflict_iff]
        exact hex
      simp [Api.ContactsRoute.POST, hfal, hc]
    · intro hex
      have hc : Api.ContactsRoute.phoneConflict db uid
          (Api.ContactsRoute.mkContact uid body newId now).phone_number = false := by
        rw [← Bool.not_eq_true, phoneConflict_iff]
        exact hex
      simp [Api.ContactsRoute.POST, hfal, hc]

/-- C5 witness: the success branch evaluated on an empty store with the
example body of the spec. -/
theorem C5_witness :
    Api.ContactsRoute.POST ({} : DB) (some "alice") bodyCreate "c1" 7 =
      (.ok (Api.ContactsRoute.mkContact "alice" bodyCreate "c1" 7),
       { contacts := [Api.ContactsRoute.mkContact "alice" bodyCreate "c1" 7] }) :=
  ((C5_create_contact_spec ({} : DB) "alice" bodyCreate "c1" 7).2
    (by decide) (by decide) (by decide) (by decide)).2 (by simp)

/-- C6 counterexample: the raw query is interpolated into the ilike
pattern, so the wildcard query consisting of one percent sign matches
every non-null column; the search by alice with that query returns her
contact although none of the five searched columns contains a percent
sign as a literal substring, falsifying the claim that exactly the
substring-matching contacts are returned. -/
theorem C6_counterexample :
    Api.SearchRoute.GET dbOne (some "alice") "%" none = .ok [aliceContact] ∧
      specMatchesQuery aliceContact "%" = false := by
  decide

/-- C6 (amended): for every authenticated caller and every query free of
the SQL LIKE wildcards (percent, underscore, backslash) and of the
or-filter metacharacters (comma, parentheses), the search handler
succeeds with exactly the stored contacts of the caller that contain a
non-empty query case-insensitively as a literal substring of custom
name, whatsapp name, phone number, email or company, and whose tag array
holds a truthy supplied tag exactly, both filters conjoined, the result
sorted by custom name ascending. -/
theorem C6_search_spec_clean_query (db : DB) (uid : String) (q : String)
    (tag : Option String) (hq : cleanQuery q) :
    ∃ l, Api.SearchRoute.GET db (some uid) q tag = .ok l ∧
      (∀ c, c ∈ l ↔ c ∈ db.contacts ∧ c.owner_id = uid ∧
        (q ≠ "" → specMatchesQuery c q = true) ∧
        (∀ t, tag = some t → t ≠ "" → hasTag c t = true)) ∧
      l.Sorted nameLE := by
  have hwild : ∀ a ∈ q.toList, a ≠ '%' ∧ a ≠ '_' ∧ a ≠ '\\' :=
    fun a ha => ⟨(hq a ha).1, (hq a ha).2.1, (hq a ha).2.2.1⟩
  have hbr : orFilterBroken q = false := by
    rw [← Bool.not_eq_true, orFilterBroken, List.any_eq_true]
    rintro ⟨a, ha, hmeta⟩
    obtain ⟨-, -, -, h4, h5, h6⟩ := hq a ha
    simp [h4, h5, h6] at hmeta
  have hmq : ∀ c : Contact, matchesQuery c q = specMatchesQuery c q :=
    fun c => matchesQuery_eq_spec c q hwild
  have hGET : Api.SearchRoute.GET db (some uid) q tag =
      .ok (sortByCustomName (Api.SearchRoute.filteredContacts db uid q tag)) := by
    simp [Api.SearchRoute.GET, hbr]
  refine ⟨_, hGET, ?_, List.sorted_insertionSort _ _⟩
  intro c
  by_cases hq0 : q = "" <;> cases tag with
  | none =>
    simp [Api.SearchRoute.filteredContacts, hq0, hmq, sortByCustomName,
      List.mem_insertionSort, List.mem_filter, and_assoc] <;> tauto
  | some t =>
    by_cases ht : t = "" <;>
      simp [Api.SearchRoute.filteredContacts, hq0, ht, hmq, sortByCustomName,
        List.mem_insertionSort, List.mem_filter, and_assoc] <;>
      tauto

/-- C6 witness: the amended characterisation instantiated on a concrete
state and a clean query. -/
theorem C6_witness :
    ∃ l, Api.SearchRoute.GET dbOne (some "alice") "ali" none = .ok l ∧
      (∀ c, c ∈ l ↔ c ∈ dbOne.contacts ∧ c.owner_id = "alice" ∧
        ("ali" ≠ "" → specMatchesQuery c "ali" = true) ∧
        (∀ t, (none : Option String) = some t → t ≠ "" → hasTag c t = true)) ∧
      l.Sorted nameLE :=
  C6_search_spec_clean_query dbOne "alice" "ali" none (by unfold cleanQuery; decide)

/-- C7: every one of the nine handlers invoked without an authenticated
caller answers Unauthorized, whose status is 401, and returns the
database unchanged (no read is reflected in the response and no row is
touched). -/
theorem C7_unauthenticated_all_401 (db : DB) (body : ContactBody)
    (cid gid q newId : String) (tag userId : Option String)
    (ids : Option (List String)) (now : Nat) :
    Api.ContactsRoute.GET db none = .unauthorized ∧
    Api.ContactsRoute.POST db none body newId now = (.unauthorized, db) ∧
    Api.ContactIdRoute.GET db none cid = .unauthorized ∧
    Api.ContactIdRoute.PUT db none cid body now = (.unauthorized, db) ∧
    Api.ContactIdRoute.DELETE db none cid = (.unauthorized, db) ∧
    Api.SearchRoute.GET db none q tag = .unauthorized ∧
    Api.GroupMembersRoute.GET db none gid = .unauthorized ∧
    Api.GroupMembersRoute.POST db none gid ids = (.unauthorized, db) ∧
    Api.GroupMembersRoute.DELETE db none gid userId = (.unauthorized, db) ∧
    (HandlerResult.unauthorized : HandlerResult Unit).status = 401 :=
  ⟨rfl, rfl, rfl, rfl, rfl, rfl, rfl, rfl, rfl, rfl⟩

/-- C8: the edit-mode save of the group dialog, with previous membership
set P and current selection S, computes additions exactly for the
identifiers of S outside P and removals exactly for the identifiers of P
outside S; an identifier in both sets is in neither list. -/
theorem C8_save_delta_spec (P S : List String) (x : String) :
    (x ∈ (handleSaveDelta P S).1 ↔ x ∈ S ∧ x ∉ P) ∧
      (x ∈ (handleSaveDelta P S).2 ↔ x ∈ P ∧ x ∉ S) := by
  simp [handleSaveDelta, List.mem_filter]

/-- C8 witness: the delta characterisation instantiated on the scenario
of the spec, membership A,B against selection B,C, at the untouched
identifier B. -/
theorem C8_witness :
    ("B" ∈ (handleSaveDelta ["A", "B"] ["B", "C"]).1 ↔
        "B" ∈ ["B", "C"] ∧ "B" ∉ ["A", "B"]) ∧
      ("B" ∈ (handleSaveDelta ["A", "B"] ["B", "C"]).2 ↔
        "B" ∈ ["A", "B"] ∧ "B" ∉ ["B", "C"]) :=
  C8_save_delta_spec ["A", "B"] ["B", "C"] "B"

/-- C9: for every authenticated caller the search handler invoked with an
empty query (the default when the parameter is absent) and no tag
returns exactly the response of the list handler: same contact set, same
order. -/
theorem C9_search_default_eq_list (db : DB) (uid : String) :
    Api.SearchRoute.GET db (some uid) "" none = Api.ContactsRoute.GET db (some uid) :=
  rfl

/-- C10: every member object of a successful members response has
unread_count 0, and the formatting map sends a join row without a
contact record to a member whose user_id, custom_name and whatsapp_name
are the empty string. -/
theorem C10_members_spec (db : DB) (uid gid : String) (ms : List Member)
    (h : Api.GroupMembersRoute.GET db (some uid) gid = .ok ms) :
    (∀ m ∈ ms, m.unread_count = 0) ∧
      (∀ r : JoinRow, r.contacts = none →
        formatMember r = { member_id := r.contact_id, user_id := "", custom_name := "",
                           whatsapp_name := "", unread_count := 0 }) := by
  constructor
  · intro m hm
    simp only [Api.GroupMembersRoute.GET] at h
    cases hg : ownsGroup db uid gid with
    | false => rw [hg] at h; simp at h
    | true =>
      rw [hg] at h
      simp only [if_true] at h
      cases h
      simp only [List.mem_map] at hm
      obtain ⟨r, _, hr⟩ := hm
      rw [← hr]
      rfl
  · intro r hr
    simp [formatMember, hr]

/-- C10 witness: the statement evaluated on a concrete group whose single
member is joined to a present contact. -/
theorem C10_witness :
    (∀ m ∈ msMembers, m.unread_count = 0) ∧
      (∀ r : JoinRow, r.contacts = none →
        formatMember r = { member_id := r.contact_id, user_id := "", custom_name := "",
                           whatsapp_name := "", unread_count := 0 }) :=
  C10_members_spec dbMembers "alice" "g1" msMembers (by decide)

end Wechat
